import Mathlib

/-!
Verification of the CopilotV2 edit-prediction provider
(`crates/copilot_v2/src/copilotv2_provider.rs`) against its design
specification.

The provider is embedded shallowly: its state struct becomes a Lean
structure, each method becomes a pure function on that structure, and the
asynchronous refresh lifecycle is modelled by an explicit event/step
semantics.  External collaborators from the host editor (the `language`
crate's buffers and anchors, `gpui` entities and tasks, the settings
registry) are modelled by minimal structures carrying exactly the data the
provider inspects; those models are marked as such in their doc comments.
Rust byte offsets are modelled at character granularity.
-/

set_option autoImplicit false

namespace CopilotV2Spec

/-- Model of the external `language` crate's buffer snapshot: the text
content plus a version stamp used to resolve anchor validity. -/
structure BufferSnapshot where
  text : String
  version : Nat
deriving DecidableEq

/-- Model of the external `language` crate's `Anchor`: a position in a
buffer, remembered together with the snapshot version it was created
against.  `to_offset` resolves it to an offset; `is_valid` checks it still
refers to a live position of the given snapshot. -/
structure Anchor where
  offset : Nat
  version : Nat
deriving DecidableEq

/-- Model of `Anchor::to_offset(&snapshot)`. -/
def Anchor.toOffset (a : Anchor) (_s : BufferSnapshot) : Nat :=
  a.offset

/-- Model of `Anchor::is_valid(&snapshot)`: the anchor was created against
the snapshot version being queried. -/
def Anchor.validIn (a : Anchor) (s : BufferSnapshot) : Bool :=
  a.version == s.version

/-- Model of `BufferSnapshot::anchor_at(offset, Bias::Right)`: an anchor at
the given offset, valid in this snapshot. -/
def BufferSnapshot.anchorAt (s : BufferSnapshot) (offset : Nat) : Anchor :=
  { offset := offset, version := s.version }

/-- Model of `Anchor::bias_right(&snapshot)`; bias is not observable in the
model, so this is the identity on the position. -/
def Anchor.biasRight (a : Anchor) (_s : BufferSnapshot) : Anchor :=
  a

/-- Model of a `gpui` buffer entity: an entity id, the current snapshot and
an optional file name (for the extension computation in `refresh`). -/
structure Buffer where
  entityId : Nat
  snapshot : BufferSnapshot
  fileName : Option String
deriving DecidableEq

/-- `std::ops::Range<Anchor>` as stored in a mock completion. -/
structure AnchorRange where
  start : Anchor
  stop : Anchor
deriving DecidableEq

/-- `MockCompletion`: replacement text plus the anchor range it replaces. -/
structure MockCompletion where
  text : String
  range : AnchorRange
deriving DecidableEq

/-- The in-flight refresh work stored in `pending_refresh`: the arguments
captured by the spawned closure in `CopilotV2Provider::refresh`. -/
structure RefreshTask where
  buffer : Buffer
  cursor_position : Anchor
  debounce : Bool
deriving DecidableEq

/-- The provider state (`struct CopilotV2Provider`), minus the `copilotv2`
entity handle, which no modelled method reads. -/
structure CopilotV2Provider where
  cycled : Bool
  buffer_id : Option Nat
  completions : List MockCompletion
  active_completion_index : Nat
  file_extension : Option String
  pending_refresh : Option RefreshTask
  pending_cycling_refresh : Option Unit
deriving DecidableEq

/-- `CopilotV2Provider::new`. -/
def CopilotV2Provider.new : CopilotV2Provider :=
  { cycled := false
    buffer_id := none
    completions := []
    active_completion_index := 0
    file_extension := none
    pending_refresh := none
    pending_cycling_refresh := none }

/-- `CopilotV2Provider::active_completion`:
`self.completions.get(self.active_completion_index)`. -/
def CopilotV2Provider.active_completion (self : CopilotV2Provider) :
    Option MockCompletion :=
  self.completions.get? self.active_completion_index

/-- `CopilotV2Provider::push_completion`: drop the candidate when one with
equal text and range is already present, otherwise append it. -/
def CopilotV2Provider.push_completion (self : CopilotV2Provider)
    (new_completion : MockCompletion) : CopilotV2Provider :=
  if self.completions.any (fun completion =>
      completion.text == new_completion.text &&
      completion.range == new_completion.range) then
    self
  else
    { self with completions := self.completions ++ [new_completion] }

/-- Index just past the last occurrence of `c` in `cs`, or `0` when absent:
`cs.rfind(c).map_or(0, |pos| pos + 1)` specialised to how
`generate_mock_completions` uses `rfind`. -/
def rfindNext (cs : List Char) (c : Char) : Nat :=
  match cs with
  | [] => 0
  | x :: xs =>
    let rest := rfindNext xs c
    if rest == 0 then (if x == c then 1 else 0) else rest + 1

/-- `str::trim_end` on a character list. -/
def trimEndChars (cs : List Char) : List Char :=
  ((cs.reverse).dropWhile Char.isWhitespace).reverse

/-- `str::trim` on a character list. -/
def trimChars (cs : List Char) : List Char :=
  trimEndChars (cs.dropWhile Char.isWhitespace)

/-- `str::ends_with` on character lists. -/
def endsWithChars (cs suffix : List Char) : Bool :=
  ((cs.reverse).take suffix.length) == suffix.reverse

/-- `CopilotV2Provider::generate_mock_completions`: validate the cursor
offset against the text length before any substring operation (out of
range short-circuits to the empty vector), then build the single mock
completion whose text depends on the current line's suffix, anchored as an
empty range at the cursor. -/
def generate_mock_completions (buffer : Buffer) (cursor_position : Anchor) :
    List MockCompletion :=
  let buffer_read := buffer.snapshot
  let cursor_offset := cursor_position.toOffset buffer_read
  let text := buffer_read.text
  if cursor_offset > text.length then
    []
  else
    let line_start := rfindNext ((text.data).take cursor_offset) (Char.ofNat 10)
    let current_line := ((text.data).take cursor_offset).drop line_start
    let safe_cursor := buffer_read.anchorAt cursor_offset
    let completion_text :=
      if endsWithChars (trimEndChars current_line) (("function ").data) then
        ("myFunction() \x7b\n    // TODO: Implement function\n\x7d")
      else if endsWithChars (trimEndChars current_line) (("//").data) then
        (" TODO: Add implementation here")
      else if endsWithChars (trimEndChars current_line) (("console.").data) then
        ("log(\x27Debug message\x27)")
      else
        ("// CopilotV2 suggestion")
    [{ text := completion_text
       range := { start := safe_cursor, stop := safe_cursor } }]

/-- Model of `std::path::Path::extension` on a plain file name: the part
after the last dot, unless there is no dot or the name starts with its
only dot. -/
def pathExtension (name : String) : Option String :=
  let i := rfindNext name.data (Char.ofNat 46)
  if i == 0 then none
  else if i == 1 then none
  else some (String.mk (name.data.drop i))

/-- The `file_extension` computation in the refresh closure:
`Path::new(file.file_name(cx)).extension()?.to_str()?.to_string()`. -/
def fileExtensionOf (buffer : Buffer) : Option String :=
  buffer.fileName.bind (fun name => pathExtension name)

/-- The body of the closure spawned by `CopilotV2Provider::refresh` (the
`this.update` block): generate mock completions; when non-empty, reset the
cycling flag, clear both pending task handles, replace the completion list
wholesale via `push_completion`, reset the active index to 0 and re-record
the buffer identity and file extension; when empty, change nothing. -/
def refreshTaskBody (self : CopilotV2Provider) (buffer : Buffer)
    (cursor_position : Anchor) : CopilotV2Provider :=
  let mock_completions := generate_mock_completions buffer cursor_position
  if mock_completions.isEmpty then
    self
  else
    let cleared :=
      { self with
        cycled := false
        pending_refresh := none
        pending_cycling_refresh := none
        completions := []
        active_completion_index := 0
        buffer_id := some buffer.entityId
        file_extension := fileExtensionOf buffer }
    mock_completions.foldl CopilotV2Provider.push_completion cleared

/-- `CopilotV2Provider::refresh`: store the spawned task (its captured
arguments) in `pending_refresh`.  Overwriting the field drops the
previously stored `gpui::Task`, which cancels the superseded refresh; the
stored task's body runs later as `refreshTaskBody`. -/
def CopilotV2Provider.refresh (self : CopilotV2Provider) (buffer : Buffer)
    (cursor_position : Anchor) (debounce : Bool) : CopilotV2Provider :=
  { self with
    pending_refresh :=
      some { buffer := buffer, cursor_position := cursor_position
             debounce := debounce } }

/-- `CopilotV2Provider::is_refreshing`. -/
def CopilotV2Provider.isRefreshing (self : CopilotV2Provider) : Bool :=
  self.pending_refresh.isSome && self.completions.isEmpty

/-- `edit_prediction::Direction`. -/
inductive Direction where
  | Prev
  | Next
deriving DecidableEq

/-- `CopilotV2Provider::cycle`: cycling is disabled in the source ("keeping
current completion"); the state is returned unchanged, and the returned
flag records whether `cx.notify()` was called (only when the completion
list is non-empty). -/
def CopilotV2Provider.cycle (self : CopilotV2Provider) (_direction : Direction) :
    CopilotV2Provider × Bool :=
  if self.completions.isEmpty then
    (self, false)
  else
    (self, true)

/-- `CopilotV2Provider::accept`: the state is never mutated; the returned
list holds the observable effect (the acceptance log line carrying the
active completion's text) — the LSP acceptance notification is commented
out in the source, so the log is the only outward effect. -/
def CopilotV2Provider.accept (self : CopilotV2Provider) :
    CopilotV2Provider × List String :=
  match self.active_completion with
  | some completion => (self, [("Accepting completion: ") ++ completion.text])
  | none => (self, [])

/-- `CopilotV2Provider::discard` (the settings lookup becomes the
`copilotv2_enabled` argument): return early when edit predictions are
disabled; otherwise emit the discard log line only when completions exist.
The completion list itself is never cleared. -/
def CopilotV2Provider.discard (self : CopilotV2Provider)
    (copilotv2_enabled : Bool) : CopilotV2Provider × List String :=
  if !copilotv2_enabled then
    (self, [])
  else if !self.completions.isEmpty then
    (self, [("Discarding completions")])
  else
    (self, [])

/-- `edit_prediction::EditPrediction` restricted to the fields the provider
produces (`edit_preview` is always `None` and is omitted). -/
structure EditPrediction where
  id : Option String
  edits : List (Anchor × Anchor × String)
deriving DecidableEq

/-- `CopilotV2Provider::suggest`: `None` unless the queried buffer identity
matches the recorded one and both anchor endpoints of the active
completion are valid; then, for the insertion-at-cursor shape (empty range
exactly at the cursor offset) with non-blank text, the insertion. -/
def CopilotV2Provider.suggest (self : CopilotV2Provider) (buffer : Buffer)
    (cursor_position : Anchor) : Option EditPrediction :=
  let buffer_id := buffer.entityId
  let buffer_read := buffer.snapshot
  match self.active_completion with
  | none => none
  | some completion =>
    if (some buffer_id != self.buffer_id) ||
        !(completion.range.start.validIn buffer_read) ||
        !(completion.range.stop.validIn buffer_read) then
      none
    else
      let range_start := completion.range.start.toOffset buffer_read
      let range_stop := completion.range.stop.toOffset buffer_read
      let cursor_offset := cursor_position.toOffset buffer_read
      if (!(range_start < range_stop)) && (range_start == cursor_offset) then
        if !((trimChars completion.text.data).isEmpty) then
          let position := cursor_position.biasRight buffer_read
          some { id := some ("copilotv2-mock")
                 edits := [(position, position, completion.text)] }
        else
          none
      else
        none

/-- Events of the refresh lifecycle: issuing a `refresh` call, and the
executor completing the currently stored (most recent) refresh task.  A
task displaced from `pending_refresh` has been dropped — `gpui` cancels a
dropped `Task` — so no event exists for a superseded task completing. -/
inductive Event where
  | refreshEv (buffer : Buffer) (cursor_position : Anchor) (debounce : Bool)
  | fireEv
deriving DecidableEq

/-- One step of the provider lifecycle. -/
def step (st : CopilotV2Provider) : Event → CopilotV2Provider
  | Event.refreshEv buffer cursor_position debounce =>
    st.refresh buffer cursor_position debounce
  | Event.fireEv =>
    match st.pending_refresh with
    | some task => refreshTaskBody st task.buffer task.cursor_position
    | none => st

/-- Run a sequence of lifecycle events. -/
def run (st : CopilotV2Provider) (evs : List Event) : CopilotV2Provider :=
  evs.foldl step st

/-- The pure effect of `push_completion` on the completion list alone. -/
def pushList (l : List MockCompletion) (new_completion : MockCompletion) :
    List MockCompletion :=
  if l.any (fun completion =>
      completion.text == new_completion.text &&
      completion.range == new_completion.range) then
    l
  else
    l ++ [new_completion]

/- Concrete fixtures used by witnesses and counterexamples. -/

/-- A five-character buffer snapshot. -/
def snapA : BufferSnapshot := { text := "hello", version := 0 }

/-- A buffer over `snapA` with a Rust file name. -/
def bufA : Buffer :=
  { entityId := 1, snapshot := snapA, fileName := some ("main.rs") }

/-- The end-of-text position of `snapA` (offset = text length). -/
def anchorEndA : Anchor := { offset := 5, version := 0 }

/-- A two-character buffer snapshot. -/
def snapB : BufferSnapshot := { text := "ab", version := 3 }

/-- A second buffer, distinct identity from `bufA`. -/
def bufB : Buffer := { entityId := 2, snapshot := snapB, fileName := none }

/-- The end-of-text position of `snapB`. -/
def anchorB : Anchor := { offset := 2, version := 3 }

/-- A position far past the end of `snapB`. -/
def anchorFar : Anchor := { offset := 99, version := 3 }

/-- A cached completion anchored at the end of `snapA`. -/
def compA : MockCompletion :=
  { text := "// CopilotV2 suggestion"
    range := { start := { offset := 5, version := 0 }
               stop := { offset := 5, version := 0 } } }

/-- A second, distinct cached completion. -/
def compB : MockCompletion :=
  { text := "abc"
    range := { start := { offset := 0, version := 0 }
               stop := { offset := 0, version := 0 } } }

/-- A refresh task whose generation step will find the cursor out of
range. -/
def taskFar : RefreshTask :=
  { buffer := bufB, cursor_position := anchorFar, debounce := false }

/-- A provider with two cached completions for `bufA`. -/
def stTwo : CopilotV2Provider :=
  { CopilotV2Provider.new with
    completions := [compA, compB], buffer_id := some 1 }

/-- A provider with an empty cache and an in-flight refresh. -/
def stPending : CopilotV2Provider :=
  { CopilotV2Provider.new with pending_refresh := some taskFar }

/-- A provider holding a previously fetched set while a refresh that will
yield zero candidates is in flight. -/
def stOld : CopilotV2Provider :=
  { CopilotV2Provider.new with
    completions := [compA], buffer_id := some 1
    pending_refresh := some taskFar }

/- Helper lemmas shared by several claims. -/

/-- `push_completion` only touches the `completions` field, and does so as
`pushList`. -/
theorem push_completion_eq (self : CopilotV2Provider) (c : MockCompletion) :
    self.push_completion c =
      { self with completions := pushList self.completions c } := by
  unfold CopilotV2Provider.push_completion pushList
  split
  · cases self
    simp_all
  · rfl

/-- Folding `push_completion` over a list only touches the `completions`
field, folding `pushList` there. -/
theorem foldl_push_completion_eq (l : List MockCompletion)
    (self : CopilotV2Provider) :
    l.foldl CopilotV2Provider.push_completion self =
      { self with completions := l.foldl pushList self.completions } := by
  induction l generalizing self with
  | nil => rfl
  | cons c l ih =>
    rw [List.foldl_cons, List.foldl_cons, push_completion_eq, ih]

/-- `cycle` never changes the provider state. -/
theorem cycle_fst (self : CopilotV2Provider) (direction : Direction) :
    (self.cycle direction).1 = self := by
  unfold CopilotV2Provider.cycle
  split <;> rfl

/-- `run` distributes over list append. -/
theorem run_append (st : CopilotV2Provider) (l1 l2 : List Event) :
    run st (l1 ++ l2) = run (run st l1) l2 :=
  List.foldl_append step st l1 l2

/-- `run` peels one event. -/
theorem run_cons (st : CopilotV2Provider) (e : Event) (ts : List Event) :
    run st (e :: ts) = run (step st e) ts := rfl

/-- When the generation step yields no candidates, the refresh body is the
identity on the provider state. -/
theorem refreshTaskBody_of_empty (st : CopilotV2Provider) (buffer : Buffer)
    (cursor_position : Anchor)
    (h : (generate_mock_completions buffer cursor_position).isEmpty = true) :
    refreshTaskBody st buffer cursor_position = st := by
  unfold refreshTaskBody
  simp [h]

/-- When the generation step yields candidates, the refresh body clears the
pending handle. -/
theorem refreshTaskBody_pending_of_nonempty (st : CopilotV2Provider)
    (buffer : Buffer) (cursor_position : Anchor)
    (h : (generate_mock_completions buffer cursor_position).isEmpty = false) :
    (refreshTaskBody st buffer cursor_position).pending_refresh = none := by
  unfold refreshTaskBody
  rw [if_neg (by simp [h])]
  rw [foldl_push_completion_eq]

/-- With no pending task, fire events leave the state untouched. -/
theorem run_fires_of_no_pending (st : CopilotV2Provider)
    (h : st.pending_refresh = none) (ts : List Event)
    (hts : ∀ e ∈ ts, e = Event.fireEv) : run st ts = st := by
  induction ts with
  | nil => rfl
  | cons e ts ih =>
    have he : e = Event.fireEv := hts e (List.mem_cons_self e ts)
    subst he
    have hstep : step st Event.fireEv = st := by
      unfold step
      rw [h]
    show run (step st Event.fireEv) ts = st
    rw [hstep]
    exact ih (fun e hm => hts e (List.mem_cons_of_mem _ hm))

/-- After a refresh of `(buffer, cursor_position)` is the stored (most
recent) task, any sequence of task completions leaves the state either
untouched or equal to that refresh's own application — a superseded
refresh can never be the one applied. -/
theorem run_fires_of_pending (st1 : CopilotV2Provider) (buffer : Buffer)
    (cursor_position : Anchor) (debounce : Bool)
    (h1 : st1.pending_refresh =
      some { buffer := buffer, cursor_position := cursor_position
             debounce := debounce })
    (ts : List Event) (hts : ∀ e ∈ ts, e = Event.fireEv) :
    run st1 ts = st1 ∨
      run st1 ts = refreshTaskBody st1 buffer cursor_position := by
  induction ts generalizing st1 with
  | nil => exact Or.inl rfl
  | cons e ts ih =>
    have he : e = Event.fireEv := hts e (List.mem_cons_self e ts)
    subst he
    have hts' : ∀ e ∈ ts, e = Event.fireEv :=
      fun e hm => hts e (List.mem_cons_of_mem _ hm)
    have hstep : step st1 Event.fireEv =
        refreshTaskBody st1 buffer cursor_position := by
      unfold step
      rw [h1]
    rw [run_cons, hstep]
    cases hg : (generate_mock_completions buffer cursor_position).isEmpty with
    | true =>
      rw [refreshTaskBody_of_empty st1 buffer cursor_position hg]
      rcases ih st1 h1 hts' with h | h
      · exact Or.inl h
      · rw [refreshTaskBody_of_empty st1 buffer cursor_position hg] at h
        exact Or.inl h
    | false =>
      have hp := refreshTaskBody_pending_of_nonempty st1 buffer
        cursor_position hg
      rw [run_fires_of_no_pending _ hp ts hts']
      exact Or.inr rfl

/-- C1: for any event history ending in a refresh of `(buffer,
cursor_position)` followed by any number of asynchronous task completions,
the resulting state is either the state at the moment of that last refresh
or that last refresh's own application; a completion belonging to a
superseded refresh (its task was dropped, hence cancelled, when
`pending_refresh` was overwritten) never mutates the state, so only the
last issued refresh's suggestion set is ever observable via `suggest`. -/
theorem c1_last_refresh_wins (st : CopilotV2Provider) (evs ts : List Event)
    (buffer : Buffer) (cursor_position : Anchor) (debounce : Bool)
    (hts : ∀ e ∈ ts, e = Event.fireEv) :
    run st (evs ++ Event.refreshEv buffer cursor_position debounce :: ts) =
        run st (evs ++ [Event.refreshEv buffer cursor_position debounce]) ∨
      run st (evs ++ Event.refreshEv buffer cursor_position debounce :: ts) =
        refreshTaskBody
          (run st (evs ++ [Event.refreshEv buffer cursor_position debounce]))
          buffer cursor_position := by
  have hsplit : evs ++ Event.refreshEv buffer cursor_position debounce :: ts =
      (evs ++ [Event.refreshEv buffer cursor_position debounce]) ++ ts := by
    simp
  rw [hsplit, run_append]
  apply run_fires_of_pending _ buffer cursor_position debounce _ ts hts
  rw [run_append]
  rfl

/-- C1 witness: refresh A (`bufA`) is superseded by refresh B (`bufB`)
before any fetch completes; however many completions then arrive, the
state is B's. -/
theorem c1_witness :
    (∀ e ∈ [Event.fireEv, Event.fireEv], e = Event.fireEv) ∧
    (run CopilotV2Provider.new
        ([Event.refreshEv bufA anchorEndA true] ++
          Event.refreshEv bufB anchorB false :: [Event.fireEv, Event.fireEv]) =
        run CopilotV2Provider.new
          ([Event.refreshEv bufA anchorEndA true] ++
            [Event.refreshEv bufB anchorB false]) ∨
      run CopilotV2Provider.new
        ([Event.refreshEv bufA anchorEndA true] ++
          Event.refreshEv bufB anchorB false :: [Event.fireEv, Event.fireEv]) =
        refreshTaskBody
          (run CopilotV2Provider.new
            ([Event.refreshEv bufA anchorEndA true] ++
              [Event.refreshEv bufB anchorB false]))
          bufB anchorB) :=
  ⟨by decide,
    c1_last_refresh_wins CopilotV2Provider.new
      [Event.refreshEv bufA anchorEndA true] [Event.fireEv, Event.fireEv]
      bufB anchorB false (by decide)⟩

/-- C5: `is_refreshing()` returns true exactly when a refresh task is in
flight and the cached completion list is empty. -/
theorem c5_is_refreshing_iff (st : CopilotV2Provider) :
    st.isRefreshing = true ↔
      st.pending_refresh.isSome = true ∧ st.completions = [] := by
  unfold CopilotV2Provider.isRefreshing
  simp [List.isEmpty_iff]

/-- C6: generating a suggestion set with a cursor offset strictly past the
text length yields the empty set; an offset up to and including the text
length yields a (one-element) set.  The bounds check precedes every
substring operation in `generate_mock_completions`. -/
theorem c6_generate_bounds (buffer : Buffer) (cursor_position : Anchor) :
    (generate_mock_completions buffer cursor_position).length =
      if cursor_position.toOffset buffer.snapshot >
          buffer.snapshot.text.length then 0 else 1 := by
  unfold generate_mock_completions
  simp only [gt_iff_lt]
  by_cases hc : buffer.snapshot.text.length <
      cursor_position.toOffset buffer.snapshot
  · simp [hc]
  · simp [hc]

/-- C4 counterexample: on a two-element set at active index 0, `cycle(Next)`
leaves the index at 0 instead of advancing to `(0 + 1) % 2 = 1` — cycling
is disabled in the source. -/
theorem c4_counterexample :
    ¬ ((stTwo.cycle Direction.Next).1.active_completion_index =
        (stTwo.active_completion_index + 1) % stTwo.completions.length) := by
  decide

/-- C4 amended: `cycle` is a no-op on the provider state for every set and
direction — it never changes the active index (even on non-empty sets),
never faults, and never starts a fetch (`pending_refresh` is untouched). -/
theorem c4_cycle_noop (st : CopilotV2Provider) (direction : Direction) :
    (st.cycle direction).1 = st := cycle_fst st direction

/-- C8: `cycle(Next)` followed immediately by `cycle(Prev)` returns the
active index to its original value on any non-empty set. -/
theorem c8_next_then_prev (st : CopilotV2Provider)
    (_h : st.completions ≠ []) :
    (((st.cycle Direction.Next).1).cycle Direction.Prev).1.active_completion_index
      = st.active_completion_index := by
  rw [cycle_fst, cycle_fst]

/-- C8 witness: the round trip at a concrete two-element set. -/
theorem c8_witness :
    stTwo.completions ≠ [] ∧
    (((stTwo.cycle Direction.Next).1).cycle Direction.Prev).1.active_completion_index
      = stTwo.active_completion_index :=
  ⟨by decide, c8_next_then_prev stTwo (by decide)⟩

/-- C7: a candidate equal in text and range to a present one is dropped by
`push_completion`, and pushing the same candidate twice into an empty set
leaves exactly one element. -/
theorem c7_push_dedup (st : CopilotV2Provider) (c : MockCompletion) :
    ((∃ c0 ∈ st.completions, c0.text = c.text ∧ c0.range = c.range) →
      st.push_completion c = st) ∧
    (st.completions = [] →
      ((st.push_completion c).push_completion c).completions.length = 1) := by
  constructor
  · rintro ⟨c0, hmem, ht, hr⟩
    unfold CopilotV2Provider.push_completion
    rw [if_pos]
    exact List.any_eq_true.mpr ⟨c0, hmem, by simp [ht, hr]⟩
  · intro h
    rw [push_completion_eq, push_completion_eq]
    simp [pushList, h]

/-- C7 witness: deduplication at a concrete state and candidate. -/
theorem c7_witness :
    ((∃ c0 ∈ stTwo.completions, c0.text = compA.text ∧ c0.range = compA.range) →
      stTwo.push_completion compA = stTwo) ∧
    (CopilotV2Provider.new.completions = [] →
      ((CopilotV2Provider.new.push_completion compA).push_completion
          compA).completions.length = 1) :=
  ⟨(c7_push_dedup stTwo compA).1, (c7_push_dedup CopilotV2Provider.new compA).2⟩

/-- C9: `accept` with no active completion and `discard` with an empty set
both leave the state unchanged and emit nothing, for either value of the
edit-prediction setting. -/
theorem c9_accept_discard_noop (st st2 : CopilotV2Provider) (enabled : Bool)
    (h1 : st.active_completion = none) (h2 : st2.completions = []) :
    st.accept = (st, []) ∧ st2.discard enabled = (st2, []) := by
  constructor
  · unfold CopilotV2Provider.accept
    rw [h1]
  · unfold CopilotV2Provider.discard
    cases enabled <;> simp [h2]

/-- C9 witness: the no-ops at a concrete empty provider. -/
theorem c9_witness :
    CopilotV2Provider.new.active_completion = none ∧
    CopilotV2Provider.new.completions = [] ∧
    (CopilotV2Provider.new.accept = (CopilotV2Provider.new, []) ∧
      CopilotV2Provider.new.discard true = (CopilotV2Provider.new, [])) :=
  ⟨by decide, by decide,
    c9_accept_discard_noop CopilotV2Provider.new CopilotV2Provider.new true
      (by decide) (by decide)⟩

/-- C10: a refresh whose generation step yields zero candidates leaves every
provider field unchanged — including `pending_refresh`, so with an empty
cache `is_refreshing()` still reports true after the task body ran. -/
theorem c10_empty_refresh_frame (st : CopilotV2Provider) (buffer : Buffer)
    (cursor_position : Anchor)
    (h : generate_mock_completions buffer cursor_position = []) :
    refreshTaskBody st buffer cursor_position = st ∧
    (st.completions = [] → st.pending_refresh.isSome = true →
      (refreshTaskBody st buffer cursor_position).isRefreshing = true) := by
  have hb : refreshTaskBody st buffer cursor_position = st := by
    unfold refreshTaskBody
    simp [h]
  refine ⟨hb, fun h1 h2 => ?_⟩
  rw [hb]
  unfold CopilotV2Provider.isRefreshing
  simp [h1, h2]

/-- C10 witness: an out-of-range refresh over a populated pending handle. -/
theorem c10_witness :
    generate_mock_completions bufB anchorFar = [] ∧
    stPending.completions = [] ∧
    stPending.pending_refresh.isSome = true ∧
    (refreshTaskBody stPending bufB anchorFar = stPending ∧
      (refreshTaskBody stPending bufB anchorFar).isRefreshing = true) := by
  refine ⟨by decide, by decide, by decide, ?_⟩
  have h := c10_empty_refresh_frame stPending bufB anchorFar (by decide)
  exact ⟨h.1, h.2 (by decide) (by decide)⟩

/-- C3 counterexample: a completed refresh whose fetch produced zero
suggestions does not replace the cached set — the previous completion
survives and the buffer identity is not re-recorded. -/
theorem c3_counterexample :
    generate_mock_completions bufB anchorFar = [] ∧
    (refreshTaskBody stOld bufB anchorFar).completions ≠ [] ∧
    (refreshTaskBody stOld bufB anchorFar).buffer_id ≠ some bufB.entityId := by
  decide

/-- C3 amended: a completed refresh whose fetch yields at least one
suggestion replaces the cached set wholesale — the result is what a fresh
provider would hold (independent of the previous set), the active index is
reset to 0, the buffer identity is re-recorded and the pending handle is
cleared; a fetch yielding zero suggestions leaves the cache untouched. -/
theorem c3_replace_wholesale (st : CopilotV2Provider) (buffer : Buffer)
    (cursor_position : Anchor)
    (h : generate_mock_completions buffer cursor_position ≠ []) :
    (refreshTaskBody st buffer cursor_position).completions =
      (refreshTaskBody CopilotV2Provider.new buffer cursor_position).completions ∧
    (refreshTaskBody st buffer cursor_position).active_completion_index = 0 ∧
    (refreshTaskBody st buffer cursor_position).buffer_id =
      some buffer.entityId ∧
    (refreshTaskBody st buffer cursor_position).pending_refresh = none := by
  unfold refreshTaskBody
  rw [if_neg (by simpa [List.isEmpty_iff] using h),
    if_neg (by simpa [List.isEmpty_iff] using h)]
  rw [foldl_push_completion_eq]
  simp

/-- C2: `suggest` returns a prediction exactly when the queried buffer's
identity equals the one recorded at the last successful refresh, both
anchor endpoints of the active completion are valid in the buffer's
current snapshot, the completion's range is empty and sits exactly at the
cursor offset, and its text is non-blank; the prediction is then the
insertion of that text at the cursor. -/
theorem c2_suggest_characterization (st : CopilotV2Provider)
    (buffer : Buffer) (cursor_position : Anchor) (p : EditPrediction) :
    st.suggest buffer cursor_position = some p ↔
      ∃ completion, st.active_completion = some completion ∧
        st.buffer_id = some buffer.entityId ∧
        completion.range.start.validIn buffer.snapshot = true ∧
        completion.range.stop.validIn buffer.snapshot = true ∧
        ¬ (completion.range.start.toOffset buffer.snapshot <
            completion.range.stop.toOffset buffer.snapshot) ∧
        completion.range.start.toOffset buffer.snapshot =
          cursor_position.toOffset buffer.snapshot ∧
        trimChars completion.text.data ≠ [] ∧
        p = { id := some ("copilotv2-mock")
              edits := [(cursor_position.biasRight buffer.snapshot,
                         cursor_position.biasRight buffer.snapshot,
                         completion.text)] } := by
  unfold CopilotV2Provider.suggest
  cases hac : st.active_completion with
  | none => simp
  | some completion =>
    simp only [Option.some.injEq, exists_eq_left']
    by_cases hid : st.buffer_id = some buffer.entityId
    · by_cases hvs : completion.range.start.validIn buffer.snapshot = true
      · by_cases hve : completion.range.stop.validIn buffer.snapshot = true
        · rw [if_neg (by simp [hid, hvs, hve])]
          by_cases hlt : completion.range.start.toOffset buffer.snapshot <
              completion.range.stop.toOffset buffer.snapshot
          · rw [if_neg (by simp [hlt])]
            simp [hid, hvs, hve, hlt]
          · by_cases heq : completion.range.start.toOffset buffer.snapshot =
                cursor_position.toOffset buffer.snapshot
            · rw [if_pos (by simp [hlt, heq]; omega)]
              by_cases hblank : trimChars completion.text.data = []
              · rw [if_neg (by simp [List.isEmpty_iff, hblank])]
                simp [hid, hvs, hve, hlt, heq, hblank]
              · rw [if_pos (by simp [List.isEmpty_iff, hblank])]
                simp [hid, hvs, hve, hlt, heq, hblank, eq_comm]
                intro _
                omega
            · rw [if_neg (by simp [heq])]
              simp [hid, hvs, hve, hlt, heq]
        · rw [if_pos (by simp [hve])]
          simp [hve]
      · rw [if_pos (by simp [hvs])]
        simp [hvs]
    · rw [if_pos (by simp [Ne.symm hid])]
      simp [hid]

/-- C3 witness: an in-range refresh over a populated provider. -/
theorem c3_witness :
    generate_mock_completions bufA anchorEndA ≠ [] ∧
    ((refreshTaskBody stOld bufA anchorEndA).completions =
        (refreshTaskBody CopilotV2Provider.new bufA anchorEndA).completions ∧
      (refreshTaskBody stOld bufA anchorEndA).active_completion_index = 0 ∧
      (refreshTaskBody stOld bufA anchorEndA).buffer_id = some bufA.entityId ∧
      (refreshTaskBody stOld bufA anchorEndA).pending_refresh = none) :=
  ⟨by decide, c3_replace_wholesale stOld bufA anchorEndA (by decide)⟩

end CopilotV2Spec
